import Mathlib

/-!
Verification of the signup controller in node-tdd-design-patterns.

The embedding follows the TypeScript sources:
  src/presentation/controllers/signup/signup.ts  (SignupController, two
    collaborators: EmailValidator and AddAccount), and
  src/presentation/controllers/signup.ts  (the legacy SignupController with
    only an EmailValidator).
Request bodies are dynamic JavaScript objects, so field values are modelled
by an inductive type of JavaScript primitive values with the JavaScript
notions of truthiness and strict equality. Collaborator calls that may raise
are modelled with Except, the thrown payload being a String. Collaborator
invocations are observed through an event trace returned next to the
response.
-/

/-- Model of a JavaScript primitive value as stored in a request body.
Property access on a key the body does not carry yields vUndefined, exactly
as in JavaScript. Numbers are modelled by integers plus a separate NaN
constructor, which is enough to decide truthiness and strict equality. -/
inductive JsValue where
  | vUndefined : JsValue
  | vNull : JsValue
  | vBool : Bool → JsValue
  | vNum : Int → JsValue
  | vNaN : JsValue
  | vStr : String → JsValue
deriving DecidableEq, Repr

/-- JavaScript truthiness: undefined, null, false, 0, NaN and the empty
string are falsy, every other primitive is truthy. This is the semantics of
the source test `if (!httpRequest.body[field])`. -/
def truthy : JsValue → Bool
  | JsValue.vUndefined => false
  | JsValue.vNull => false
  | JsValue.vBool b => b
  | JsValue.vNum n => n != 0
  | JsValue.vNaN => false
  | JsValue.vStr s => s != ""

/-- JavaScript strict equality on the modelled primitives: values of
different types are never strictly equal, and NaN is not strictly equal to
anything, itself included. The source uses its negation in
`password !== passwordConfirmation`. -/
def strictEq : JsValue → JsValue → Bool
  | JsValue.vUndefined, JsValue.vUndefined => true
  | JsValue.vNull, JsValue.vNull => true
  | JsValue.vBool a, JsValue.vBool b => a == b
  | JsValue.vNum a, JsValue.vNum b => a == b
  | JsValue.vStr a, JsValue.vStr b => a == b
  | _, _ => false

/-- Modelled from the spec: the error bodies built by the error classes
MissingParamError, InvalidParamError and ServerError, whose files
src/presentation/errors are not part of the provided sources. Per spec
sections 6 and 7, the first two identify the offending field by name and
the server error is a fixed generic descriptor carrying no failure detail. -/
inductive ErrorBody where
  | missingParam : String → ErrorBody
  | invalidParam : String → ErrorBody
  | serverErrorBody : ErrorBody
deriving DecidableEq, Repr

/-- The account value returned by the AddAccount collaborator, per spec
section 3: the created account including its generated identifier. -/
structure AccountModel where
  id : String
  name : String
  email : String
  password : String
deriving DecidableEq, Repr

/-- The argument object the controller builds for AddAccount.add with the
object literal containing name, email and password. The structure has
exactly these three fields, so by construction it carries no
passwordConfirmation key. Field values are JsValue because the body is
dynamic and the controller forwards whatever the body holds. -/
structure AddAccountModel where
  name : JsValue
  email : JsValue
  password : JsValue
deriving DecidableEq, Repr

/-- The body of an HttpResponse: either an error descriptor or the account
passed through from the AddAccount collaborator. -/
inductive ResponseBody where
  | err : ErrorBody → ResponseBody
  | account : AccountModel → ResponseBody
deriving DecidableEq, Repr

/-- HttpResponse from the protocols: a status code and a body. -/
structure HttpResponse where
  statusCode : Nat
  body : ResponseBody
deriving DecidableEq, Repr

/-- HttpRequest from the protocols: carries a dynamic body, modelled as a
total map from key to JsValue with vUndefined standing for an absent key. -/
structure HttpRequest where
  body : String → JsValue

/-- Modelled from the spec: helper badRequest of src/presentation/helpers,
not part of the provided sources; spec section 4.2 defines it as the pair
of status 400 with the given error. -/
def badRequest (e : ErrorBody) : HttpResponse :=
  { statusCode := 400, body := ResponseBody.err e }

/-- Modelled from the spec: helper serverError of src/presentation/helpers,
not part of the provided sources; spec section 4.2 defines it as status 500
with a fixed generic descriptor leaking nothing of the failure. -/
def serverError : HttpResponse :=
  { statusCode := 500, body := ResponseBody.err ErrorBody.serverErrorBody }

/-- Modelled from the spec: helper ok of src/presentation/helpers, not part
of the provided sources; spec section 4.2 defines it as status 200 with the
given data. -/
def ok (a : AccountModel) : HttpResponse :=
  { statusCode := 200, body := ResponseBody.account a }

/-- The requiredFields list of SignupController.handle, in source order. -/
def requiredFields : List String :=
  ["name", "email", "password", "passwordConfirmation"]

/-- Embeds the for-loop of SignupController.handle over requiredFields:
the first field whose body value is falsy short-circuits the loop with
badRequest of a MissingParamError naming that field; none means every
field was truthy and control continues past the loop. -/
def checkRequiredFields (body : String → JsValue) : List String → Option HttpResponse
  | [] => none
  | field :: rest =>
    if truthy (body field) then checkRequiredFields body rest
    else some (badRequest (ErrorBody.missingParam field))

/-- One collaborator invocation observed during handle: either a call of
EmailValidator.isValid with its argument or a call of AddAccount.add with
its argument. -/
inductive CallEvent where
  | isValidCall : JsValue → CallEvent
  | addCall : AddAccountModel → CallEvent
deriving DecidableEq, Repr

/-- True exactly on EmailValidator.isValid invocation events. -/
def CallEvent.isEmailCheck : CallEvent → Bool
  | CallEvent.isValidCall _ => true
  | CallEvent.addCall _ => false

/-- True exactly on AddAccount.add invocation events. -/
def CallEvent.isAddCall : CallEvent → Bool
  | CallEvent.isValidCall _ => false
  | CallEvent.addCall _ => true

/-- Embedding of SignupController.handle of
src/presentation/controllers/signup/signup.ts, instrumented with the list
of collaborator invocations in call order. The collaborators are the
injected emailValidator and addAccount; an Except.error result stands for
the collaborator raising, which the single try/catch of the source turns
into serverError. The field destructuring, the password comparison, the
isValid guard and the final ok follow the source line by line. -/
def SignupController.handleTr
    (emailValidator : JsValue → Except String Bool)
    (addAccount : AddAccountModel → Except String AccountModel)
    (httpRequest : HttpRequest) : HttpResponse × List CallEvent :=
  match checkRequiredFields httpRequest.body requiredFields with
  | some resp => (resp, [])
  | none =>
    let name := httpRequest.body "name"
    let email := httpRequest.body "email"
    let password := httpRequest.body "password"
    let passwordConfirmation := httpRequest.body "passwordConfirmation"
    if !(strictEq password passwordConfirmation) then
      (badRequest (ErrorBody.invalidParam "passwordConfirmation"), [])
    else
      match emailValidator email with
      | Except.error _ => (serverError, [CallEvent.isValidCall email])
      | Except.ok isValid =>
        if !isValid then
          (badRequest (ErrorBody.invalidParam "email"), [CallEvent.isValidCall email])
        else
          match addAccount (AddAccountModel.mk name email password) with
          | Except.error _ =>
            (serverError,
              [CallEvent.isValidCall email,
                CallEvent.addCall (AddAccountModel.mk name email password)])
          | Except.ok account =>
            (ok account,
              [CallEvent.isValidCall email,
                CallEvent.addCall (AddAccountModel.mk name email password)])

/-- SignupController.handle itself: the response component of the
instrumented embedding. -/
def SignupController.handle
    (emailValidator : JsValue → Except String Bool)
    (addAccount : AddAccountModel → Except String AccountModel)
    (httpRequest : HttpRequest) : HttpResponse :=
  (SignupController.handleTr emailValidator addAccount httpRequest).1

/-- Embedding of the legacy SignupController.handle of
src/presentation/controllers/signup.ts, which takes only the email
validator. When every required field is truthy and the validator accepts
the email, control falls off the end of the method and JavaScript returns
undefined; the embedding returns none there, and some wraps every response
the source actually builds. -/
def LegacySignupController.handle
    (emailValidator : JsValue → Except String Bool)
    (httpRequest : HttpRequest) : Option HttpResponse :=
  match checkRequiredFields httpRequest.body requiredFields with
  | some resp => some resp
  | none =>
    match emailValidator (httpRequest.body "email") with
    | Except.error _ => some serverError
    | Except.ok isValid =>
      if !isValid then some (badRequest (ErrorBody.invalidParam "email"))
      else none

/-! Helper lemmas shared by the claim theorems. -/

/-- If the field at position i of requiredFields is falsy while all earlier
fields are truthy, the required-fields loop stops at that field with the
matching MissingParamError response. -/
theorem checkRequiredFields_firstMissing (body : String → JsValue) (i : Nat)
    (hi : i < 4)
    (hbefore : ∀ j, j < i → truthy (body (requiredFields.getD j "")) = true)
    (hmiss : truthy (body (requiredFields.getD i "")) = false) :
    checkRequiredFields body requiredFields =
      some (badRequest (ErrorBody.missingParam (requiredFields.getD i ""))) := by
  interval_cases i
  · simp [requiredFields, List.getD] at hmiss
    simp [checkRequiredFields, requiredFields, hmiss]
  · have h0 := hbefore 0 (by omega)
    simp [requiredFields, List.getD] at h0 hmiss
    simp [checkRequiredFields, requiredFields, h0, hmiss]
  · have h0 := hbefore 0 (by omega)
    have h1 := hbefore 1 (by omega)
    simp [requiredFields, List.getD] at h0 h1 hmiss
    simp [checkRequiredFields, requiredFields, h0, h1, hmiss]
  · have h0 := hbefore 0 (by omega)
    have h1 := hbefore 1 (by omega)
    have h2 := hbefore 2 (by omega)
    simp [requiredFields, List.getD] at h0 h1 h2 hmiss
    simp [checkRequiredFields, requiredFields, h0, h1, h2, hmiss]

/-- If all four required fields are truthy, the required-fields loop
finishes without producing a response. -/
theorem checkRequiredFields_allPresent (body : String → JsValue)
    (hname : truthy (body "name") = true)
    (hemail : truthy (body "email") = true)
    (hpassword : truthy (body "password") = true)
    (hconfirm : truthy (body "passwordConfirmation") = true) :
    checkRequiredFields body requiredFields = none := by
  simp [checkRequiredFields, requiredFields, hname, hemail, hpassword, hconfirm]

/-- If the required-fields loop finishes without a response, every listed
field was truthy. -/
theorem checkRequiredFields_eq_none_truthy (body : String → JsValue) :
    ∀ fields : List String, checkRequiredFields body fields = none →
      ∀ g ∈ fields, truthy (body g) = true := by
  intro fields
  induction fields with
  | nil => intro _ g hg; cases hg
  | cons f rest ih =>
    intro hnone g hg
    rw [List.mem_cons] at hg
    by_cases hf : truthy (body f)
    · rcases hg with hg | hg
      · exact hg ▸ hf
      · exact ih (by simpa [checkRequiredFields, hf] using hnone) g hg
    · simp [checkRequiredFields, hf] at hnone

/-- Replacing one falsy body value by vUndefined does not change the result
of the required-fields loop: the loop reacts only to truthiness, and both
values are falsy. -/
theorem checkRequiredFields_falsy_to_undefined (body : String → JsValue)
    (f : String) (hfalsy : truthy (body f) = false) :
    ∀ fields : List String,
      checkRequiredFields body fields =
        checkRequiredFields (fun g => if g = f then JsValue.vUndefined else body g) fields := by
  intro fields
  induction fields with
  | nil => rfl
  | cons g rest ih =>
    by_cases hg : g = f
    · subst hg
      have hu : truthy JsValue.vUndefined = false := rfl
      simp [checkRequiredFields, hfalsy, hu]
    · simp only [checkRequiredFields, if_neg hg]
      rw [ih]

/-- C1: for every request whose body is missing or binds falsy the required
field at position i of the fixed order name, email, password,
passwordConfirmation, with every earlier field present, handle returns
status 400 with a MissingParam body naming that field; the conclusion holds
for every choice of collaborators and of the later field values, so no
later field is checked, and the empty call trace shows that neither the
email validator nor the account-creation collaborator is invoked. The same
response is produced by the legacy one-collaborator controller. -/
theorem signup_missing_field_returns_400
    (emailValidator : JsValue → Except String Bool)
    (addAccount : AddAccountModel → Except String AccountModel)
    (body : String → JsValue) (i : Nat) (hi : i < 4)
    (hbefore : ∀ j, j < i → truthy (body (requiredFields.getD j "")) = true)
    (hmiss : truthy (body (requiredFields.getD i "")) = false) :
    SignupController.handleTr emailValidator addAccount ⟨body⟩ =
      (badRequest (ErrorBody.missingParam (requiredFields.getD i "")), []) ∧
    LegacySignupController.handle emailValidator ⟨body⟩ =
      some (badRequest (ErrorBody.missingParam (requiredFields.getD i ""))) := by
  have hc := checkRequiredFields_firstMissing body i hi hbefore hmiss
  constructor
  · simp [SignupController.handleTr, hc]
  · simp [LegacySignupController.handle, hc]

/-- Concrete body with name present and the email field absent, as in the
first missing-field scenario of the test-file table. -/
def demoBodyMissingEmail : String → JsValue
  | "name" => JsValue.vStr "any_name"
  | _ => JsValue.vUndefined

/-- Witness for C1: on the concrete body missing email, with a validator
accepting everything and a failing account store, both controllers answer
400 MissingParam email without touching any collaborator. -/
theorem signup_missing_field_returns_400_witness :
    SignupController.handleTr (fun _ => Except.ok true)
        (fun _ => Except.error "db down") ⟨demoBodyMissingEmail⟩ =
      (badRequest (ErrorBody.missingParam "email"), []) ∧
    LegacySignupController.handle (fun _ => Except.ok true) ⟨demoBodyMissingEmail⟩ =
      some (badRequest (ErrorBody.missingParam "email")) := by
  have h := signup_missing_field_returns_400 (fun _ => Except.ok true)
    (fun _ => Except.error "db down") demoBodyMissingEmail 1 (by decide)
    (by
      intro j hj
      interval_cases j
      decide)
    (by decide)
  simpa [requiredFields] using h

/-- C10: a required field bound to any falsy value, the boolean false, the
number 0, NaN, the empty string, null or undefined alike, is treated
exactly as an absent field: the whole handle result is unchanged when the
value is replaced by undefined, and when every earlier required field is
truthy the response is 400 with a MissingParam body naming that field. -/
theorem signup_falsy_field_treated_as_missing
    (emailValidator : JsValue → Except String Bool)
    (addAccount : AddAccountModel → Except String AccountModel)
    (body : String → JsValue) (f : String)
    (hfalsy : body f = JsValue.vBool false ∨ body f = JsValue.vNum 0 ∨
      body f = JsValue.vNaN ∨ body f = JsValue.vStr "" ∨
      body f = JsValue.vNull ∨ body f = JsValue.vUndefined) :
    SignupController.handleTr emailValidator addAccount ⟨body⟩ =
      SignupController.handleTr emailValidator addAccount
        ⟨fun g => if g = f then JsValue.vUndefined else body g⟩ ∧
    (∀ i, i < 4 → requiredFields.getD i "" = f →
      (∀ j, j < i → truthy (body (requiredFields.getD j "")) = true) →
      SignupController.handleTr emailValidator addAccount ⟨body⟩ =
        (badRequest (ErrorBody.missingParam f), [])) := by
  have hf : truthy (body f) = false := by
    rcases hfalsy with h | h | h | h | h | h <;> rw [h] <;> rfl
  constructor
  · have hcc := checkRequiredFields_falsy_to_undefined body f hf requiredFields
    cases hck : checkRequiredFields body requiredFields with
    | some resp =>
      have hck2 : checkRequiredFields
          (fun g => if g = f then JsValue.vUndefined else body g) requiredFields =
          some resp := by rw [← hcc]; exact hck
      simp [SignupController.handleTr, hck, hck2]
    | none =>
      have hck2 : checkRequiredFields
          (fun g => if g = f then JsValue.vUndefined else body g) requiredFields =
          none := by rw [← hcc]; exact hck
      have hall := checkRequiredFields_eq_none_truthy body requiredFields hck
      have hne : ∀ g ∈ requiredFields, g ≠ f := by
        intro g hg hgf
        have ht := hall g hg
        rw [hgf, hf] at ht
        exact Bool.false_ne_true ht
      have e1 : (if "name" = f then JsValue.vUndefined else body "name") = body "name" :=
        if_neg (hne "name" (by simp [requiredFields]))
      have e2 : (if "email" = f then JsValue.vUndefined else body "email") = body "email" :=
        if_neg (hne "email" (by simp [requiredFields]))
      have e3 : (if "password" = f then JsValue.vUndefined else body "password") = body "password" :=
        if_neg (hne "password" (by simp [requiredFields]))
      have e4 : (if "passwordConfirmation" = f then JsValue.vUndefined
          else body "passwordConfirmation") = body "passwordConfirmation" :=
        if_neg (hne "passwordConfirmation" (by simp [requiredFields]))
      simp [SignupController.handleTr, hck, hck2, e1, e2, e3, e4]
  · intro i hi hif hbefore
    have hmiss : truthy (body (requiredFields.getD i "")) = false := by
      rw [hif]; exact hf
    have hc := checkRequiredFields_firstMissing body i hi hbefore hmiss
    rw [hif] at hc
    simp [SignupController.handleTr, hc]

/-- Concrete body binding name to the boolean false and the other fields to
nonempty strings. -/
def demoBodyFalsyName : String → JsValue
  | "name" => JsValue.vBool false
  | _ => JsValue.vStr "any_value"

/-- Witness for C10: with name bound to the boolean false, handle answers
exactly as with name absent, namely 400 MissingParam name. -/
theorem signup_falsy_field_treated_as_missing_witness :
    SignupController.handleTr (fun _ => Except.ok true)
        (fun _ => Except.ok (AccountModel.mk "id" "n" "e" "p")) ⟨demoBodyFalsyName⟩ =
      SignupController.handleTr (fun _ => Except.ok true)
        (fun _ => Except.ok (AccountModel.mk "id" "n" "e" "p"))
        ⟨fun g => if g = "name" then JsValue.vUndefined else demoBodyFalsyName g⟩ ∧
    SignupController.handleTr (fun _ => Except.ok true)
        (fun _ => Except.ok (AccountModel.mk "id" "n" "e" "p")) ⟨demoBodyFalsyName⟩ =
      (badRequest (ErrorBody.missingParam "name"), []) := by
  have h := signup_falsy_field_treated_as_missing (fun _ => Except.ok true)
    (fun _ => Except.ok (AccountModel.mk "id" "n" "e" "p")) demoBodyFalsyName "name"
    (Or.inl rfl)
  exact ⟨h.1, h.2 0 (by decide) (by decide) (fun j hj => absurd hj (Nat.not_lt_zero j))⟩

/-- C2: when all four required fields are present but password is not
strictly equal to passwordConfirmation, handle returns 400 with an
InvalidParam body naming passwordConfirmation, and the empty call trace
shows that neither the email validator nor the account-creation
collaborator is invoked; the comparison is reached only because all four
presence checks passed. -/
theorem signup_password_mismatch_returns_400
    (emailValidator : JsValue → Except String Bool)
    (addAccount : AddAccountModel → Except String AccountModel)
    (body : String → JsValue)
    (hname : truthy (body "name") = true)
    (hemail : truthy (body "email") = true)
    (hpassword : truthy (body "password") = true)
    (hconfirm : truthy (body "passwordConfirmation") = true)
    (hne : strictEq (body "password") (body "passwordConfirmation") = false) :
    SignupController.handleTr emailValidator addAccount ⟨body⟩ =
      (badRequest (ErrorBody.invalidParam "passwordConfirmation"), []) := by
  have hc := checkRequiredFields_allPresent body hname hemail hpassword hconfirm
  simp [SignupController.handleTr, hc, hne]

/-- Concrete body with all fields present and a mismatching confirmation,
as in the password-validation scenario of the test file. -/
def demoBodyMismatch : String → JsValue
  | "name" => JsValue.vStr "any_name"
  | "email" => JsValue.vStr "any_email@mail.com"
  | "password" => JsValue.vStr "any_password"
  | "passwordConfirmation" => JsValue.vStr "invalid_password"
  | _ => JsValue.vUndefined

/-- Witness for C2 at the concrete mismatching body. -/
theorem signup_password_mismatch_returns_400_witness :
    SignupController.handleTr (fun _ => Except.ok true)
        (fun _ => Except.ok (AccountModel.mk "id" "n" "e" "p")) ⟨demoBodyMismatch⟩ =
      (badRequest (ErrorBody.invalidParam "passwordConfirmation"), []) :=
  signup_password_mismatch_returns_400 (fun _ => Except.ok true)
    (fun _ => Except.ok (AccountModel.mk "id" "n" "e" "p")) demoBodyMismatch
    (by decide) (by decide) (by decide) (by decide) (by decide)

/-- Concrete body with all fields present and matching passwords, as in the
success scenario of the test file. -/
def demoBodyOk : String → JsValue
  | "name" => JsValue.vStr "valid_name"
  | "email" => JsValue.vStr "valid_email@email.com"
  | "password" => JsValue.vStr "valid_password"
  | "passwordConfirmation" => JsValue.vStr "valid_password"
  | _ => JsValue.vUndefined

/-- C6: when all four required fields are present and password strictly
equals passwordConfirmation, the email validator is invoked exactly once,
with exactly the email value of the request body: filtering the call trace
to EmailValidator.isValid events yields the one-element list of that call,
whatever the two collaborators answer. -/
theorem signup_email_validator_called_once_with_email
    (emailValidator : JsValue → Except String Bool)
    (addAccount : AddAccountModel → Except String AccountModel)
    (body : String → JsValue)
    (hname : truthy (body "name") = true)
    (hemail : truthy (body "email") = true)
    (hpassword : truthy (body "password") = true)
    (hconfirm : truthy (body "passwordConfirmation") = true)
    (heq : strictEq (body "password") (body "passwordConfirmation") = true) :
    ((SignupController.handleTr emailValidator addAccount ⟨body⟩).2).filter
        CallEvent.isEmailCheck = [CallEvent.isValidCall (body "email")] := by
  have hc := checkRequiredFields_allPresent body hname hemail hpassword hconfirm
  cases hev : emailValidator (body "email") with
  | error msg =>
    simp [SignupController.handleTr, hc, heq, hev, CallEvent.isEmailCheck]
  | ok isValid =>
    cases isValid with
    | false =>
      simp [SignupController.handleTr, hc, heq, hev, CallEvent.isEmailCheck]
    | true =>
      cases haa : addAccount (AddAccountModel.mk (body "name") (body "email") (body "password")) with
      | error msg =>
        simp [SignupController.handleTr, hc, heq, hev, haa, CallEvent.isEmailCheck]
      | ok account =>
        simp [SignupController.handleTr, hc, heq, hev, haa, CallEvent.isEmailCheck]

/-- Witness for C6 at the concrete valid body with an accepting validator
and a succeeding account store. -/
theorem signup_email_validator_called_once_with_email_witness :
    ((SignupController.handleTr (fun _ => Except.ok true)
        (fun _ => Except.ok (AccountModel.mk "valid_id" "valid_name" "valid_email@email.com" "valid_password"))
        ⟨demoBodyOk⟩).2).filter CallEvent.isEmailCheck =
      [CallEvent.isValidCall (JsValue.vStr "valid_email@email.com")] := by
  have h := signup_email_validator_called_once_with_email (fun _ => Except.ok true)
    (fun _ => Except.ok (AccountModel.mk "valid_id" "valid_name" "valid_email@email.com" "valid_password"))
    demoBodyOk (by decide) (by decide) (by decide) (by decide) (by decide)
  simpa [demoBodyOk] using h

/-- C7: when all four required fields are present, the passwords match and
the email validator returns false, handle answers 400 with an InvalidParam
body naming email, and the call trace contains only the validator call, so
the account-creation collaborator is never invoked. -/
theorem signup_invalid_email_returns_400
    (emailValidator : JsValue → Except String Bool)
    (addAccount : AddAccountModel → Except String AccountModel)
    (body : String → JsValue)
    (hname : truthy (body "name") = true)
    (hemail : truthy (body "email") = true)
    (hpassword : truthy (body "password") = true)
    (hconfirm : truthy (body "passwordConfirmation") = true)
    (heq : strictEq (body "password") (body "passwordConfirmation") = true)
    (hev : emailValidator (body "email") = Except.ok false) :
    SignupController.handleTr emailValidator addAccount ⟨body⟩ =
      (badRequest (ErrorBody.invalidParam "email"),
        [CallEvent.isValidCall (body "email")]) := by
  have hc := checkRequiredFields_allPresent body hname hemail hpassword hconfirm
  simp [SignupController.handleTr, hc, heq, hev]

/-- Witness for C7 at the concrete valid body with a rejecting validator. -/
theorem signup_invalid_email_returns_400_witness :
    SignupController.handleTr (fun _ => Except.ok false)
        (fun _ => Except.ok (AccountModel.mk "id" "n" "e" "p")) ⟨demoBodyOk⟩ =
      (badRequest (ErrorBody.invalidParam "email"),
        [CallEvent.isValidCall (JsValue.vStr "valid_email@email.com")]) := by
  have h := signup_invalid_email_returns_400 (fun _ => Except.ok false)
    (fun _ => Except.ok (AccountModel.mk "id" "n" "e" "p")) demoBodyOk
    (by decide) (by decide) (by decide) (by decide) (by decide) rfl
  simpa [demoBodyOk] using h

/-- C3: with the checks passed so that collaborators are reached, a raised
failure of either collaborator, modelled by an Except.error with an
arbitrary message, makes handle answer the fixed serverError response,
which carries the constant generic body whatever the message was; when the
raising step is the email validator, the call trace contains only the
validator call, so the account-creation collaborator is never invoked. -/
theorem signup_collaborator_throw_returns_500
    (emailValidator : JsValue → Except String Bool)
    (addAccount : AddAccountModel → Except String AccountModel)
    (body : String → JsValue)
    (hname : truthy (body "name") = true)
    (hemail : truthy (body "email") = true)
    (hpassword : truthy (body "password") = true)
    (hconfirm : truthy (body "passwordConfirmation") = true)
    (heq : strictEq (body "password") (body "passwordConfirmation") = true) :
    (∀ msg, emailValidator (body "email") = Except.error msg →
      SignupController.handleTr emailValidator addAccount ⟨body⟩ =
        (serverError, [CallEvent.isValidCall (body "email")])) ∧
    (∀ msg, emailValidator (body "email") = Except.ok true →
      addAccount (AddAccountModel.mk (body "name") (body "email") (body "password")) =
        Except.error msg →
      SignupController.handleTr emailValidator addAccount ⟨body⟩ =
        (serverError,
          [CallEvent.isValidCall (body "email"),
            CallEvent.addCall (AddAccountModel.mk (body "name") (body "email") (body "password"))])) := by
  have hc := checkRequiredFields_allPresent body hname hemail hpassword hconfirm
  constructor
  · intro msg hev
    simp [SignupController.handleTr, hc, heq, hev]
  · intro msg hev haa
    simp [SignupController.handleTr, hc, heq, hev, haa]

/-- Witness for C3: a validator raising with message boom yields the
serverError response and no account-creation call. -/
theorem signup_collaborator_throw_returns_500_witness :
    SignupController.handleTr (fun _ => Except.error "boom")
        (fun _ => Except.ok (AccountModel.mk "id" "n" "e" "p")) ⟨demoBodyOk⟩ =
      (serverError, [CallEvent.isValidCall (JsValue.vStr "valid_email@email.com")]) := by
  have h := (signup_collaborator_throw_returns_500 (fun _ => Except.error "boom")
    (fun _ => Except.ok (AccountModel.mk "id" "n" "e" "p")) demoBodyOk
    (by decide) (by decide) (by decide) (by decide) (by decide)).1 "boom" rfl
  simpa [demoBodyOk] using h

/-- C4: when all four required fields are present, the passwords match, the
email validator accepts and the account-creation collaborator returns an
account, handle answers status 200 with exactly that account as body,
unmodified, the trace showing the two collaborator calls in order. -/
theorem signup_success_returns_200_with_account
    (emailValidator : JsValue → Except String Bool)
    (addAccount : AddAccountModel → Except String AccountModel)
    (body : String → JsValue) (account : AccountModel)
    (hname : truthy (body "name") = true)
    (hemail : truthy (body "email") = true)
    (hpassword : truthy (body "password") = true)
    (hconfirm : truthy (body "passwordConfirmation") = true)
    (heq : strictEq (body "password") (body "passwordConfirmation") = true)
    (hev : emailValidator (body "email") = Except.ok true)
    (haa : addAccount (AddAccountModel.mk (body "name") (body "email") (body "password")) =
      Except.ok account) :
    SignupController.handleTr emailValidator addAccount ⟨body⟩ =
      (ok account,
        [CallEvent.isValidCall (body "email"),
          CallEvent.addCall (AddAccountModel.mk (body "name") (body "email") (body "password"))]) := by
  have hc := checkRequiredFields_allPresent body hname hemail hpassword hconfirm
  simp [SignupController.handleTr, hc, heq, hev, haa]

/-- The account returned by the AddAccount stub of the test file. -/
def fakeAccount : AccountModel :=
  AccountModel.mk "valid_id" "valid_name" "valid_email@email.com" "valid_password"

/-- Witness for C4: on the concrete valid body, with the test-file stub
collaborators, handle returns 200 carrying exactly the stub account. -/
theorem signup_success_returns_200_with_account_witness :
    SignupController.handleTr (fun _ => Except.ok true) (fun _ => Except.ok fakeAccount)
        ⟨demoBodyOk⟩ =
      (ok fakeAccount,
        [CallEvent.isValidCall (JsValue.vStr "valid_email@email.com"),
          CallEvent.addCall (AddAccountModel.mk (JsValue.vStr "valid_name")
            (JsValue.vStr "valid_email@email.com") (JsValue.vStr "valid_password"))]) := by
  have h := signup_success_returns_200_with_account (fun _ => Except.ok true)
    (fun _ => Except.ok fakeAccount) demoBodyOk fakeAccount
    (by decide) (by decide) (by decide) (by decide) (by decide) rfl rfl
  simpa [demoBodyOk] using h

/-- C5: when the email validator returns true on a request that reached it,
the account-creation collaborator is invoked exactly once, and its argument
is exactly the AddAccountModel built from the name, email and password of
the body; the AddAccountModel structure has only these three fields, so the
argument carries no passwordConfirmation key. Filtering the call trace to
AddAccount.add events yields that one-element list, whatever add answers. -/
theorem signup_add_called_once_with_sanitized_model
    (emailValidator : JsValue → Except String Bool)
    (addAccount : AddAccountModel → Except String AccountModel)
    (body : String → JsValue)
    (hname : truthy (body "name") = true)
    (hemail : truthy (body "email") = true)
    (hpassword : truthy (body "password") = true)
    (hconfirm : truthy (body "passwordConfirmation") = true)
    (heq : strictEq (body "password") (body "passwordConfirmation") = true)
    (hev : emailValidator (body "email") = Except.ok true) :
    ((SignupController.handleTr emailValidator addAccount ⟨body⟩).2).filter
        CallEvent.isAddCall =
      [CallEvent.addCall (AddAccountModel.mk (body "name") (body "email") (body "password"))] := by
  have hc := checkRequiredFields_allPresent body hname hemail hpassword hconfirm
  cases haa : addAccount (AddAccountModel.mk (body "name") (body "email") (body "password")) with
  | error msg =>
    simp [SignupController.handleTr, hc, heq, hev, haa, CallEvent.isAddCall]
  | ok account =>
    simp [SignupController.handleTr, hc, heq, hev, haa, CallEvent.isAddCall]

/-- Witness for C5 at the concrete valid body with stub collaborators. -/
theorem signup_add_called_once_with_sanitized_model_witness :
    ((SignupController.handleTr (fun _ => Except.ok true) (fun _ => Except.ok fakeAccount)
        ⟨demoBodyOk⟩).2).filter CallEvent.isAddCall =
      [CallEvent.addCall (AddAccountModel.mk (JsValue.vStr "valid_name")
        (JsValue.vStr "valid_email@email.com") (JsValue.vStr "valid_password"))] := by
  have h := signup_add_called_once_with_sanitized_model (fun _ => Except.ok true)
    (fun _ => Except.ok fakeAccount) demoBodyOk
    (by decide) (by decide) (by decide) (by decide) (by decide) rfl
  simpa [demoBodyOk] using h

/-- Every response the required-fields loop produces is a 400 response. -/
theorem checkRequiredFields_some_statusCode (body : String → JsValue) :
    ∀ (fields : List String) (resp : HttpResponse),
      checkRequiredFields body fields = some resp → resp.statusCode = 400 := by
  intro fields
  induction fields with
  | nil => intro resp h; simp [checkRequiredFields] at h
  | cons f rest ih =>
    intro resp h
    by_cases hf : truthy (body f)
    · exact ih resp (by simpa [checkRequiredFields, hf] using h)
    · simp [checkRequiredFields, hf] at h
      rw [← h]
      rfl

/-- Counterexample to C8 as stated: the legacy controller of
src/presentation/controllers/signup.ts falls off the end of handle on a
fully valid request once the validator accepts, so the concrete valid body
with an accepting validator yields no HttpResponse at all, modelled by
none. -/
theorem legacy_signup_valid_request_returns_no_response :
    LegacySignupController.handle (fun _ => Except.ok true) ⟨demoBodyOk⟩ = none := by
  decide

/-- C8 amended: restricted to the current controller of
src/presentation/controllers/signup/signup.ts, every invocation of handle,
for every request and every collaborator outcome, produces exactly one
HttpResponse, whose status is 200, 400 or 500; no failure propagates,
because a collaborator error is mapped to the serverError response. -/
theorem signup_always_returns_single_response
    (emailValidator : JsValue → Except String Bool)
    (addAccount : AddAccountModel → Except String AccountModel)
    (httpRequest : HttpRequest) :
    (SignupController.handle emailValidator addAccount httpRequest).statusCode = 200 ∨
    (SignupController.handle emailValidator addAccount httpRequest).statusCode = 400 ∨
    (SignupController.handle emailValidator addAccount httpRequest).statusCode = 500 := by
  cases hck : checkRequiredFields httpRequest.body requiredFields with
  | some resp =>
    have h400 := checkRequiredFields_some_statusCode httpRequest.body requiredFields resp hck
    right; left
    simp [SignupController.handle, SignupController.handleTr, hck, h400]
  | none =>
    by_cases hpq : strictEq (httpRequest.body "password")
        (httpRequest.body "passwordConfirmation") = true
    · cases hev : emailValidator (httpRequest.body "email") with
      | error msg =>
        right; right
        simp [SignupController.handle, SignupController.handleTr, hck, hpq, hev, serverError]
      | ok isValid =>
        cases isValid with
        | false =>
          right; left
          simp [SignupController.handle, SignupController.handleTr, hck, hpq, hev, badRequest]
        | true =>
          cases haa : addAccount (AddAccountModel.mk (httpRequest.body "name")
              (httpRequest.body "email") (httpRequest.body "password")) with
          | error msg =>
            right; right
            simp [SignupController.handle, SignupController.handleTr, hck, hpq, hev, haa,
              serverError]
          | ok account =>
            left
            simp [SignupController.handle, SignupController.handleTr, hck, hpq, hev, haa, ok]
    · right; left
      simp [SignupController.handle, SignupController.handleTr, hck, hpq, badRequest]
